import Mathlib

/-!
Verification of the CloudFront / Lambda@Edge event wrappers of
`aws_lambda_powertools/utilities/data_classes/cloudfront_event.py`, and of
the schema-validated invocation decorator they compose with.

The Python classes are thin views over a JSON-decoded nested mapping.  We
embed the JSON data as an inductive `JValue`, a wrapped mapping as an
association list `Obj` (CPython dicts preserve insertion order; updating an
existing key keeps its position), and each property accessor as a function
from the underlying data to `Except PyError _`, mirroring the exceptions the
Python code can raise (`KeyError`, `TypeError`, `IndexError`,
`NotImplementedError`, `ValueError`).
-/

/-- A JSON-decoded Python value: the payloads these wrappers receive. -/
inductive JValue where
  | str (s : String)
  | num (n : Int)
  | bool (b : Bool)
  | null
  | obj (fields : List (String × JValue))
  | arr (elems : List JValue)

/-- The underlying mapping a `DictWrapper` view holds (`self._data`). -/
abbrev Obj := List (String × JValue)

/-- The exceptions raised by the accessors of `cloudfront_event.py`. -/
inductive PyError where
  | keyError (key : String)
  | typeError (msg : String)
  | indexError
  | notImplementedError
  | valueError (msg : String)
deriving DecidableEq, Repr

/-- First value stored under `k`, as in a Python dict lookup. -/
def Obj.find : Obj → String → Option JValue
  | [], _ => none
  | (k', v) :: rest, k => if k' = k then some v else Obj.find rest k

/-- Modelled from the spec: `DictWrapper.__getitem__` (the `DictWrapper`
base class of `common.py` is not among the staged files).  Per the spec, an
accessor that reads an absent key "fails with a missing-key error rather
than returning null": `self[key]` delegates to the wrapped dict, raising
`KeyError` when the key is absent. -/
def Obj.getItem (fs : Obj) (k : String) : Except PyError JValue :=
  match Obj.find fs k with
  | some v => .ok v
  | none => .error (.keyError k)

/-- Modelled from the spec: `key in self` (`DictWrapper.__contains__`,
`common.py` not staged) tests membership in the wrapped dict. -/
def Obj.containsKey (fs : Obj) (k : String) : Bool :=
  (Obj.find fs k).isSome

/-- `self._data[k] = v` on a dict: rewrite `k` in place (an existing key
keeps its position; a new key is appended). -/
def Obj.setKey : Obj → String → JValue → Obj
  | [], k, v => [(k, v)]
  | (k', v') :: rest, k, v =>
      if k' = k then (k, v) :: rest else (k', v') :: Obj.setKey rest k v

/-- Subscripting an arbitrary JSON value by a string key, as Python's
`x["k"]` does on the result of a prior lookup: a dict looks the key up
(raising `KeyError` when absent), anything else raises `TypeError`. -/
def JValue.index : JValue → String → Except PyError JValue
  | .obj fs, k => Obj.getItem fs k
  | .str _, _ => .error (.typeError "string indices must be integers")
  | _, _ => .error (.typeError "object is not subscriptable")

/-- Subscripting by a non-negative integer, as in `self["Records"][0]`: a
list yields the element (raising `IndexError` out of range), a string yields
the character, a dict raises `KeyError` (its keys are strings after JSON
decoding), anything else raises `TypeError`. -/
def JValue.indexNat : JValue → Nat → Except PyError JValue
  | .arr xs, i =>
      match xs.get? i with
      | some x => .ok x
      | none => .error .indexError
  | .str s, i =>
      match s.toList.get? i with
      | some c => .ok (.str (String.mk [c]))
      | none => .error .indexError
  | .obj _, i => .error (.keyError (toString i))
  | _, _ => .error (.typeError "object is not subscriptable")

namespace CloudFrontConfiguration

def distribution_domain_name (fs : Obj) : Except PyError JValue :=
  Obj.getItem fs "distributionDomainName"

/-- `self["distributionID"] if "distributionID" in self else self["distributionId"]` -/
def distribution_id (fs : Obj) : Except PyError JValue :=
  if Obj.containsKey fs "distributionID" then Obj.getItem fs "distributionID"
  else Obj.getItem fs "distributionId"

def event_type (fs : Obj) : Except PyError JValue :=
  Obj.getItem fs "eventType"

def request_id (fs : Obj) : Except PyError JValue :=
  Obj.getItem fs "requestId"

end CloudFrontConfiguration

namespace CloudFrontRequest

def client_ip (fs : Obj) : Except PyError JValue := Obj.getItem fs "clientIp"

def headers (fs : Obj) : Except PyError JValue := Obj.getItem fs "headers"

def method (fs : Obj) : Except PyError JValue := Obj.getItem fs "method"

def querystring (fs : Obj) : Except PyError JValue := Obj.getItem fs "querystring"

/-- `self._data["querystring"] = value` -/
def querystring_set (fs : Obj) (value : JValue) : Obj :=
  Obj.setKey fs "querystring" value

def uri (fs : Obj) : Except PyError JValue := Obj.getItem fs "uri"

/-- `self._data["uri"] = value` -/
def uri_set (fs : Obj) (value : JValue) : Obj :=
  Obj.setKey fs "uri" value

def body (fs : Obj) : Except PyError JValue := Obj.getItem fs "body"

end CloudFrontRequest

/-- The two concrete `CloudFrontRequest` subclasses; they differ only in
the `origin` property. -/
inductive RequestType where
  | CloudFrontViewerRequest
  | CloudFrontOriginRequest
deriving DecidableEq, Repr

/-- `CloudFrontViewerRequest.origin` raises
`TypeError("This is not an origin request event.")`;
`CloudFrontOriginRequest.origin` returns `self["origin"]`. -/
def CloudFrontRequest.origin : RequestType → Obj → Except PyError JValue
  | .CloudFrontViewerRequest, _ =>
      .error (.typeError "This is not an origin request event.")
  | .CloudFrontOriginRequest, fs => Obj.getItem fs "origin"

namespace CloudFrontResponse

/-- `self["body"] if "body" in self else None`: a defined default, never an
error. -/
def body (fs : Obj) : Option JValue := Obj.find fs "body"

/-- `self._data["body"] = value` -/
def body_set (fs : Obj) (value : JValue) : Obj := Obj.setKey fs "body" value

/-- `self["bodyEncoding"] if "bodyEncoding" in self else None` -/
def body_encoding (fs : Obj) : Option JValue := Obj.find fs "bodyEncoding"

/-- The `ValueError` message `f"got {value!r}, must be either 'text' or
'base64'"` (Python `repr` of a plain string quotes it with `'`). -/
def bodyEncodingErrorMsg (value : String) : String :=
  "got " ++ "'" ++ value ++ "'" ++ ", must be either " ++ "'text'" ++ " or " ++ "'base64'"

/-- The `body_encoding` setter, as a state transformer returning the
outcome and the mapping after the call: the guard `value not in ["text",
"base64"]` raises before any write, otherwise `self._data["bodyEncoding"] =
value` rewrites that one key. -/
def body_encoding_set (fs : Obj) (value : String) : Except PyError Unit × Obj :=
  if value = "text" ∨ value = "base64" then
    (.ok (), Obj.setKey fs "bodyEncoding" (.str value))
  else
    (.error (.valueError (bodyEncodingErrorMsg value)), fs)

def headers (fs : Obj) : Except PyError JValue := Obj.getItem fs "headers"

def status (fs : Obj) : Except PyError JValue := Obj.getItem fs "status"

/-- `self._data["status"] = value` -/
def status_set (fs : Obj) (value : JValue) : Obj := Obj.setKey fs "status" value

def status_description (fs : Obj) : Except PyError JValue :=
  Obj.getItem fs "statusDescription"

/-- `self._data["statusDescription"] = value` -/
def status_description_set (fs : Obj) (value : JValue) : Obj :=
  Obj.setKey fs "statusDescription" value

end CloudFrontResponse

/-- The two concrete `CloudFrontResponse` subclasses (`CloudFrontOriginResponse`,
`CloudFrontViewerResponse` differ from `CloudFrontResponse` in nothing but
name). -/
inductive ResponseType where
  | CloudFrontOriginResponse
  | CloudFrontViewerResponse
deriving DecidableEq, Repr

/-- The options object built once per `CloudFrontRecord` subclass by
`CloudFrontRecordMeta`. -/
structure CloudFrontRecordOptions where
  request_type : Option RequestType
  response_type : Option ResponseType
deriving DecidableEq, Repr

/-- `CloudFrontRecordOptions.__init__`: `getattr(meta, "event", None)` is
`none` when the class meta declares no event, and the four discriminator
strings each select a `(request_type, response_type)` pair; anything else
leaves both unset.  Construction itself never fails. -/
def CloudFrontRecordOptions.init (event : Option String) : CloudFrontRecordOptions :=
  if event = some "viewer-request" then
    ⟨some .CloudFrontViewerRequest, none⟩
  else if event = some "origin-request" then
    ⟨some .CloudFrontOriginRequest, none⟩
  else if event = some "origin-response" then
    ⟨some .CloudFrontOriginRequest, some .CloudFrontOriginResponse⟩
  else if event = some "viewer-response" then
    ⟨some .CloudFrontViewerRequest, some .CloudFrontViewerResponse⟩
  else
    ⟨none, none⟩

namespace CloudFrontRecord

/-- `CloudFrontConfiguration(data=self["cf"]["config"], ...)`; the view just
carries the extracted data. -/
def cf_config (fs : Obj) : Except PyError JValue :=
  match Obj.getItem fs "cf" with
  | .error e => .error e
  | .ok cf => cf.index "config"

/-- `CloudFrontRecord.cf_request`: raises `NotImplementedError` when the
options table has no request type, otherwise wraps `self["cf"]["request"]`
in the configured `CloudFrontRequest` subclass. -/
def cf_request (opts : CloudFrontRecordOptions) (fs : Obj) :
    Except PyError (RequestType × JValue) :=
  match opts.request_type with
  | none => .error .notImplementedError
  | some t =>
      match Obj.getItem fs "cf" with
      | .error e => .error e
      | .ok cf =>
          match cf.index "request" with
          | .error e => .error e
          | .ok req => .ok (t, req)

/-- `CloudFrontRecord.cf_response`: raises `NotImplementedError` when the
options table has no response type, otherwise wraps
`self["cf"]["response"]` in the configured `CloudFrontResponse` subclass. -/
def cf_response (opts : CloudFrontRecordOptions) (fs : Obj) :
    Except PyError (ResponseType × JValue) :=
  match opts.response_type with
  | none => .error .notImplementedError
  | some t =>
      match Obj.getItem fs "cf" with
      | .error e => .error e
      | .ok cf =>
          match cf.index "response" with
          | .error e => .error e
          | .ok resp => .ok (t, resp)

end CloudFrontRecord

/-- The four concrete `CloudFrontRecord` subclasses, one per discriminator. -/
inductive RecordType where
  | CloudFrontViewerRequestRecord
  | CloudFrontOriginRequestRecord
  | CloudFrontOriginResponseRecord
  | CloudFrontViewerResponseRecord
deriving DecidableEq, Repr

/-- `CloudFrontEventOptions.__init__`: the event-level dispatch table from
the discriminator to the record type. -/
def CloudFrontEventOptions.init (event : Option String) : Option RecordType :=
  if event = some "viewer-request" then some .CloudFrontViewerRequestRecord
  else if event = some "origin-request" then some .CloudFrontOriginRequestRecord
  else if event = some "origin-response" then some .CloudFrontOriginResponseRecord
  else if event = some "viewer-response" then some .CloudFrontViewerResponseRecord
  else none

namespace CloudFrontEvent

/-- `CloudFrontEvent.record`: raises `NotImplementedError` when the options
table has no record type, otherwise wraps `self["Records"][0]` in the
configured `CloudFrontRecord` subclass. -/
def record (record_type : Option RecordType) (fs : Obj) :
    Except PyError (RecordType × JValue) :=
  match record_type with
  | none => .error .notImplementedError
  | some t =>
      match Obj.getItem fs "Records" with
      | .error e => .error e
      | .ok recs =>
          match recs.indexNat 0 with
          | .error e => .error e
          | .ok first => .ok (t, first)

/-- Modelled from the spec: `CloudFrontEvent.records` (exercised by
`tests/unit/data_classes/required_dependencies/test_cloudfront_event.py`
but its implementation is not among the staged files).  Per the spec, it is
"a lazy, finite, non-restartable sequence over all records, each wrapped in
the same discriminator-selected type as the single-record accessor,
preserving the original sequence order" — one wrapped record per underlying
element of `Records`.  We embed the sequence it yields as the list of its
elements (laziness has no observable content in a sequential, effect-free
embedding). -/
def records (record_type : Option RecordType) (fs : Obj) :
    Except PyError (List (RecordType × JValue)) :=
  match record_type with
  | none => .error .notImplementedError
  | some t =>
      match Obj.getItem fs "Records" with
      | .error e => .error e
      | .ok (.arr xs) => .ok (xs.map fun x => (t, x))
      | .ok _ => .error (.typeError "object is not iterable")

end CloudFrontEvent

/-- Modelled from the spec: the field types of a user-declared schema for
the validation decorator (`event_parser` and the external validation
library are not among the staged files; only their tests are). -/
inductive FieldType where
  | int
  | str
deriving DecidableEq, Repr

/-- Modelled from the spec: one field-level check of the external
validator — an `int` field requires an integer value, a `str` field a
string value; a value of the wrong type is a violation, not a silent
coercion. -/
def checkField : FieldType → JValue → Bool
  | .int, .num _ => true
  | .int, _ => false
  | .str, .str _ => true
  | .str, _ => false

/-- Modelled from the spec: validating a payload against a schema yields
either the validated instance or "an aggregated list of per-field
violations", here the names of the offending fields (a field is offending
when absent or of the wrong type). -/
def validateModel (schema : List (String × FieldType)) (event : Obj) :
    Except (List String) Obj :=
  let bad := schema.filterMap fun kt =>
    match Obj.find event kt.1 with
    | some v => if checkField kt.2 v then none else some kt.1
    | none => some kt.1
  if bad = [] then .ok event else .error bad

/-- Modelled from the spec: the schema of `test_parser_validation_error`,
a model requiring `age: int` and `name: str`. -/
def StrictModel : List (String × FieldType) := [("age", .int), ("name", .str)]

/-- Modelled from the spec: the schema-validated invocation decorator —
validate the incoming payload against the schema, and only on success
invoke the user handler on the validated instance; a validation failure is
"surfaced verbatim to the caller" instead of a return value. -/
def event_parser_invoke {α : Type} (schema : List (String × FieldType))
    (handler : Obj → α) (event : Obj) : Except (List String) α :=
  match validateModel schema event with
  | .error bad => .error bad
  | .ok m => .ok (handler m)

/-!  Basic lemmas about the association-list operations.  -/

theorem Obj.find_setKey_self (fs : Obj) (k : String) (v : JValue) :
    (Obj.setKey fs k v).find k = some v := by
  induction fs with
  | nil => simp [Obj.setKey, Obj.find]
  | cons hd tl ih =>
      obtain ⟨k', v'⟩ := hd
      by_cases h : k' = k
      · simp [Obj.setKey, h, Obj.find]
      · simp [Obj.setKey, h, Obj.find, ih]

theorem Obj.find_setKey_other (fs : Obj) (k k' : String) (v : JValue)
    (hne : k' ≠ k) : (Obj.setKey fs k v).find k' = Obj.find fs k' := by
  induction fs with
  | nil => simp [Obj.setKey, Obj.find, Ne.symm hne]
  | cons hd tl ih =>
      obtain ⟨k₀, v₀⟩ := hd
      by_cases h : k₀ = k
      · subst h
        simp [Obj.setKey, Obj.find, Ne.symm hne]
      · simp only [Obj.setKey, if_neg h, Obj.find]
        by_cases h' : k₀ = k'
        · simp [h']
        · simp [h', ih]

theorem Obj.getItem_ne_nie (fs : Obj) (k : String) :
    Obj.getItem fs k ≠ .error .notImplementedError := by
  unfold Obj.getItem
  rcases hf : Obj.find fs k with _ | v <;> simp

theorem JValue.index_ne_nie (v : JValue) (k : String) :
    v.index k ≠ .error .notImplementedError := by
  cases v
  case obj fs => simpa [JValue.index] using Obj.getItem_ne_nie fs k
  all_goals simp [JValue.index]

theorem CloudFrontRecord.cf_request_some_eq (t : RequestType)
    (rt : Option ResponseType) (fs : Obj) :
    CloudFrontRecord.cf_request ⟨some t, rt⟩ fs =
      match Obj.getItem fs "cf" with
      | .error e => .error e
      | .ok cf =>
          match cf.index "request" with
          | .error e => .error e
          | .ok req => .ok (t, req) := rfl

theorem CloudFrontRecord.cf_response_some_eq (t : ResponseType)
    (rt : Option RequestType) (fs : Obj) :
    CloudFrontRecord.cf_response ⟨rt, some t⟩ fs =
      match Obj.getItem fs "cf" with
      | .error e => .error e
      | .ok cf =>
          match cf.index "response" with
          | .error e => .error e
          | .ok resp => .ok (t, resp) := rfl

theorem CloudFrontRecord.cf_request_nie_iff (opts : CloudFrontRecordOptions)
    (fs : Obj) :
    CloudFrontRecord.cf_request opts fs = .error .notImplementedError
      ↔ opts.request_type = none := by
  obtain ⟨rt, rsp⟩ := opts
  cases rt with
  | none => simp [CloudFrontRecord.cf_request]
  | some t =>
      rw [CloudFrontRecord.cf_request_some_eq]
      constructor
      · intro h
        exfalso
        rcases h1 : Obj.getItem fs "cf" with e | cf
        · simp only [h1] at h
          injection h with h'
          exact Obj.getItem_ne_nie fs "cf" (h' ▸ h1)
        · rcases h2 : cf.index "request" with e | req
          · simp only [h1, h2] at h
            injection h with h'
            exact JValue.index_ne_nie cf "request" (h' ▸ h2)
          · simp only [h1, h2] at h
            exact Except.noConfusion h
      · intro h
        exact Option.noConfusion h

theorem CloudFrontRecord.cf_response_nie_iff (opts : CloudFrontRecordOptions)
    (fs : Obj) :
    CloudFrontRecord.cf_response opts fs = .error .notImplementedError
      ↔ opts.response_type = none := by
  obtain ⟨rt, rsp⟩ := opts
  cases rsp with
  | none => simp [CloudFrontRecord.cf_response]
  | some t =>
      rw [CloudFrontRecord.cf_response_some_eq]
      constructor
      · intro h
        exfalso
        rcases h1 : Obj.getItem fs "cf" with e | cf
        · simp only [h1] at h
          injection h with h'
          exact Obj.getItem_ne_nie fs "cf" (h' ▸ h1)
        · rcases h2 : cf.index "response" with e | resp
          · simp only [h1, h2] at h
            injection h with h'
            exact JValue.index_ne_nie cf "response" (h' ▸ h2)
          · simp only [h1, h2] at h
            exact Except.noConfusion h
      · intro h
        exact Option.noConfusion h

/-- C1: the record-level configuration table is deterministic —
"viewer-request" yields `(CloudFrontViewerRequest, none)`, "origin-request"
yields `(CloudFrontOriginRequest, none)`, "origin-response" yields
`(CloudFrontOriginRequest, CloudFrontOriginResponse)`, "viewer-response"
yields `(CloudFrontViewerRequest, CloudFrontViewerResponse)`, and any other
discriminator (including absent, `none`) yields the unconfigured state
`⟨none, none⟩`; construction (`CloudFrontRecordOptions.init`, a total
function) never fails; and `cf_request` / `cf_response` fail with the
unsupported-configuration error (`NotImplementedError`) exactly when the
corresponding configured type is unset. -/
theorem claim_C1 :
    (CloudFrontRecordOptions.init (some "viewer-request")
        = ⟨some .CloudFrontViewerRequest, none⟩)
    ∧ (CloudFrontRecordOptions.init (some "origin-request")
        = ⟨some .CloudFrontOriginRequest, none⟩)
    ∧ (CloudFrontRecordOptions.init (some "origin-response")
        = ⟨some .CloudFrontOriginRequest, some .CloudFrontOriginResponse⟩)
    ∧ (CloudFrontRecordOptions.init (some "viewer-response")
        = ⟨some .CloudFrontViewerRequest, some .CloudFrontViewerResponse⟩)
    ∧ (∀ e : Option String,
        e ∉ [some "viewer-request", some "origin-request",
             some "origin-response", some "viewer-response"] →
        CloudFrontRecordOptions.init e = ⟨none, none⟩)
    ∧ (∀ (opts : CloudFrontRecordOptions) (fs : Obj),
        (CloudFrontRecord.cf_request opts fs = .error .notImplementedError
          ↔ opts.request_type = none)
        ∧ (CloudFrontRecord.cf_response opts fs = .error .notImplementedError
          ↔ opts.response_type = none)) := by
  refine ⟨by decide, by decide, by decide, by decide, ?_, ?_⟩
  · intro e he
    simp only [List.mem_cons, List.not_mem_nil, or_false, not_or] at he
    obtain ⟨h1, h2, h3, h4⟩ := he
    simp [CloudFrontRecordOptions.init, h1, h2, h3, h4]
  · intro opts fs
    exact ⟨CloudFrontRecord.cf_request_nie_iff opts fs,
           CloudFrontRecord.cf_response_nie_iff opts fs⟩

/-- C2: every configured event view exposes `record` (the first element of
`Records`, failing with `IndexError` when that sequence is empty) and a
finite sequence `records` yielding one wrapped record per underlying
element, each wrapped in the same discriminator-selected record type as
`record`, in the original order; over a single-record payload, `records`
yields exactly one element identical to `record`. -/
theorem claim_C2 (t : RecordType) (fs : Obj) (xs : List JValue)
    (h : Obj.find fs "Records" = some (.arr xs)) :
    CloudFrontEvent.records (some t) fs = .ok (xs.map fun x => (t, x))
    ∧ (xs = [] → CloudFrontEvent.record (some t) fs = .error .indexError)
    ∧ (∀ x rest, xs = x :: rest →
        CloudFrontEvent.record (some t) fs = .ok (t, x))
    ∧ (∀ x, xs = [x] →
        CloudFrontEvent.records (some t) fs = .ok [(t, x)]
        ∧ CloudFrontEvent.record (some t) fs = .ok (t, x)) := by
  have hget : Obj.getItem fs "Records" = .ok (.arr xs) := by
    unfold Obj.getItem
    rw [h]
  refine ⟨?_, ?_, ?_, ?_⟩
  · simp [CloudFrontEvent.records, hget]
  · intro hxs
    subst hxs
    simp [CloudFrontEvent.record, hget, JValue.indexNat]
  · intro x rest hxs
    subst hxs
    simp [CloudFrontEvent.record, hget, JValue.indexNat]
  · intro x hxs
    subst hxs
    exact ⟨by simp [CloudFrontEvent.records, hget],
           by simp [CloudFrontEvent.record, hget, JValue.indexNat]⟩

/-- C2 witness: a one-record payload, on the viewer-request event type. -/
theorem claim_C2_witness :
    CloudFrontEvent.records (some RecordType.CloudFrontViewerRequestRecord)
        [("Records", JValue.arr [JValue.obj []])]
      = .ok [(RecordType.CloudFrontViewerRequestRecord, JValue.obj [])] :=
  (claim_C2 RecordType.CloudFrontViewerRequestRecord
      [("Records", JValue.arr [JValue.obj []])] [JValue.obj []] rfl).1

/-- C3: `origin` on a viewer-request shaped view fails with the
capability-mismatch `TypeError` for every underlying mapping — even one
with an "origin" key — and never returns a null value; `origin` on an
origin-request shaped view returns the value stored under "origin". -/
theorem claim_C3 (fs : Obj) :
    CloudFrontRequest.origin RequestType.CloudFrontViewerRequest fs
      = .error (.typeError "This is not an origin request event.")
    ∧ (∀ v, Obj.find fs "origin" = some v →
        CloudFrontRequest.origin RequestType.CloudFrontOriginRequest fs
          = .ok v) := by
  refine ⟨rfl, ?_⟩
  intro v hv
  simp [CloudFrontRequest.origin, Obj.getItem, hv]

/-- C4: the `body_encoding` setter succeeds exactly for "text" and
"base64" — after which the written value is retrievable via the getter —
and for every other value fails with a `ValueError` whose message names the
offending value and the allowed set (the equality spells the message out:
`got '<value>', must be either 'text' or 'base64'`). -/
theorem claim_C4 (fs : Obj) (v : String) :
    ((v = "text" ∨ v = "base64") →
        (CloudFrontResponse.body_encoding_set fs v).1 = .ok ()
        ∧ CloudFrontResponse.body_encoding
            ((CloudFrontResponse.body_encoding_set fs v).2)
          = some (.str v))
    ∧ (¬(v = "text" ∨ v = "base64") →
        (CloudFrontResponse.body_encoding_set fs v).1
          = .error (.valueError (CloudFrontResponse.bodyEncodingErrorMsg v))
        ∧ CloudFrontResponse.bodyEncodingErrorMsg v
          = "got " ++ "'" ++ v ++ "'" ++ ", must be either " ++ "'text'"
              ++ " or " ++ "'base64'") := by
  constructor
  · intro hv
    constructor
    · simp [CloudFrontResponse.body_encoding_set, hv]
    · simp [CloudFrontResponse.body_encoding_set, hv,
        CloudFrontResponse.body_encoding, Obj.find_setKey_self]
  · intro hv
    exact ⟨by simp [CloudFrontResponse.body_encoding_set, hv], rfl⟩

/-- C5: write-then-read round-trip — for every underlying mapping and
value (any value, in particular any string), writing through a setter and
immediately reading the same field's getter returns the written value
unchanged, for the request fields `uri` and `querystring` and the response
fields `body`, `status`, and `status_description`. -/
theorem claim_C5 (fs : Obj) (v : JValue) :
    CloudFrontRequest.uri (CloudFrontRequest.uri_set fs v) = .ok v
    ∧ CloudFrontRequest.querystring (CloudFrontRequest.querystring_set fs v)
        = .ok v
    ∧ CloudFrontResponse.body (CloudFrontResponse.body_set fs v) = some v
    ∧ CloudFrontResponse.status (CloudFrontResponse.status_set fs v) = .ok v
    ∧ CloudFrontResponse.status_description
        (CloudFrontResponse.status_description_set fs v) = .ok v := by
  refine ⟨?_, ?_, ?_, ?_, ?_⟩
  · simp [CloudFrontRequest.uri, CloudFrontRequest.uri_set, Obj.getItem,
      Obj.find_setKey_self]
  · simp [CloudFrontRequest.querystring, CloudFrontRequest.querystring_set,
      Obj.getItem, Obj.find_setKey_self]
  · simp [CloudFrontResponse.body, CloudFrontResponse.body_set,
      Obj.find_setKey_self]
  · simp [CloudFrontResponse.status, CloudFrontResponse.status_set,
      Obj.getItem, Obj.find_setKey_self]
  · simp [CloudFrontResponse.status_description,
      CloudFrontResponse.status_description_set, Obj.getItem,
      Obj.find_setKey_self]

/-- C6: every getter reads one specific key and fails with a `KeyError`
naming that key when it is absent — except the response view's `body` and
`body_encoding`, which return the `none` sentinel instead; in particular
the request view's `body` has no default and fails. -/
theorem claim_C6 (fs : Obj) :
    (Obj.find fs "clientIp" = none →
        CloudFrontRequest.client_ip fs = .error (.keyError "clientIp"))
    ∧ (Obj.find fs "headers" = none →
        CloudFrontRequest.headers fs = .error (.keyError "headers"))
    ∧ (Obj.find fs "method" = none →
        CloudFrontRequest.method fs = .error (.keyError "method"))
    ∧ (Obj.find fs "querystring" = none →
        CloudFrontRequest.querystring fs = .error (.keyError "querystring"))
    ∧ (Obj.find fs "uri" = none →
        CloudFrontRequest.uri fs = .error (.keyError "uri"))
    ∧ (Obj.find fs "body" = none →
        CloudFrontRequest.body fs = .error (.keyError "body"))
    ∧ (Obj.find fs "origin" = none →
        CloudFrontRequest.origin RequestType.CloudFrontOriginRequest fs
          = .error (.keyError "origin"))
    ∧ (Obj.find fs "headers" = none →
        CloudFrontResponse.headers fs = .error (.keyError "headers"))
    ∧ (Obj.find fs "status" = none →
        CloudFrontResponse.status fs = .error (.keyError "status"))
    ∧ (Obj.find fs "statusDescription" = none →
        CloudFrontResponse.status_description fs
          = .error (.keyError "statusDescription"))
    ∧ (Obj.find fs "distributionDomainName" = none →
        CloudFrontConfiguration.distribution_domain_name fs
          = .error (.keyError "distributionDomainName"))
    ∧ (Obj.find fs "eventType" = none →
        CloudFrontConfiguration.event_type fs = .error (.keyError "eventType"))
    ∧ (Obj.find fs "requestId" = none →
        CloudFrontConfiguration.request_id fs = .error (.keyError "requestId"))
    ∧ (Obj.find fs "body" = none → CloudFrontResponse.body fs = none)
    ∧ (Obj.find fs "bodyEncoding" = none →
        CloudFrontResponse.body_encoding fs = none) := by
  refine ⟨?_, ?_, ?_, ?_, ?_, ?_, ?_, ?_, ?_, ?_, ?_, ?_, ?_, ?_, ?_⟩ <;>
    intro h <;>
    simp [CloudFrontRequest.client_ip, CloudFrontRequest.headers,
      CloudFrontRequest.method, CloudFrontRequest.querystring,
      CloudFrontRequest.uri, CloudFrontRequest.body,
      CloudFrontRequest.origin, CloudFrontResponse.headers,
      CloudFrontResponse.status, CloudFrontResponse.status_description,
      CloudFrontConfiguration.distribution_domain_name,
      CloudFrontConfiguration.event_type, CloudFrontConfiguration.request_id,
      CloudFrontResponse.body, CloudFrontResponse.body_encoding,
      Obj.getItem, h]

/-- The setter-style accessors `cloudfront_event.py` defines on its
concrete view classes (each `@<name>.setter` of `CloudFrontRequest` and
`CloudFrontResponse`), paired with the key of the underlying mapping each
rewrites in place. -/
def setterAccessors : List (String × String) :=
  [("CloudFrontRequest.querystring", "querystring"),
   ("CloudFrontRequest.uri", "uri"),
   ("CloudFrontResponse.body", "body"),
   ("CloudFrontResponse.body_encoding", "bodyEncoding"),
   ("CloudFrontResponse.status", "status"),
   ("CloudFrontResponse.status_description", "statusDescription")]

/-- C7 counterexample: the spec says there are two setter-style accessors;
`cloudfront_event.py` defines six (`querystring`, `uri`, `body`,
`body_encoding`, `status`, `status_description`). -/
theorem claim_C7_counterexample : ¬ setterAccessors.length = 2 := by decide

/-- C7 (amended): no getter mutates the underlying mapping (in this
embedding every getter is a pure function of the mapping and returns no
updated mapping, so this holds by construction), and each of the six
setter-style accessors rewrites only its own specific key in place,
leaving the value stored under every other key unchanged. -/
theorem claim_C7 (fs : Obj) (v : JValue) (s : String) (k : String) :
    setterAccessors.length = 6
    ∧ (k ≠ "querystring" →
        Obj.find (CloudFrontRequest.querystring_set fs v) k = Obj.find fs k)
    ∧ (k ≠ "uri" →
        Obj.find (CloudFrontRequest.uri_set fs v) k = Obj.find fs k)
    ∧ (k ≠ "body" →
        Obj.find (CloudFrontResponse.body_set fs v) k = Obj.find fs k)
    ∧ (k ≠ "bodyEncoding" →
        Obj.find ((CloudFrontResponse.body_encoding_set fs s).2) k
          = Obj.find fs k)
    ∧ (k ≠ "status" →
        Obj.find (CloudFrontResponse.status_set fs v) k = Obj.find fs k)
    ∧ (k ≠ "statusDescription" →
        Obj.find (CloudFrontResponse.status_description_set fs v) k
          = Obj.find fs k)
    ∧ Obj.find (CloudFrontRequest.querystring_set fs v) "querystring" = some v
    ∧ Obj.find (CloudFrontRequest.uri_set fs v) "uri" = some v
    ∧ Obj.find (CloudFrontResponse.body_set fs v) "body" = some v
    ∧ Obj.find (CloudFrontResponse.status_set fs v) "status" = some v
    ∧ Obj.find (CloudFrontResponse.status_description_set fs v)
        "statusDescription" = some v := by
  refine ⟨rfl, ?_, ?_, ?_, ?_, ?_, ?_,
    Obj.find_setKey_self fs "querystring" v, Obj.find_setKey_self fs "uri" v,
    Obj.find_setKey_self fs "body" v, Obj.find_setKey_self fs "status" v,
    Obj.find_setKey_self fs "statusDescription" v⟩
  · intro hk
    exact Obj.find_setKey_other fs "querystring" k v hk
  · intro hk
    exact Obj.find_setKey_other fs "uri" k v hk
  · intro hk
    exact Obj.find_setKey_other fs "body" k v hk
  · intro hk
    unfold CloudFrontResponse.body_encoding_set
    by_cases hs : s = "text" ∨ s = "base64"
    · simp only [hs, if_pos]
      exact Obj.find_setKey_other fs "bodyEncoding" k (.str s) hk
    · simp [hs]
  · intro hk
    exact Obj.find_setKey_other fs "status" k v hk
  · intro hk
    exact Obj.find_setKey_other fs "statusDescription" k v hk

/-- C9: `distribution_id` returns the value under "distributionID"
whenever that key is present (even if "distributionId" is also present),
otherwise the value under "distributionId", and fails with a missing-key
error (naming "distributionId", the key of the second lookup) only when
both keys are absent. -/
theorem claim_C9 (fs : Obj) :
    (∀ v, Obj.find fs "distributionID" = some v →
        CloudFrontConfiguration.distribution_id fs = .ok v)
    ∧ (Obj.find fs "distributionID" = none →
        ∀ v, Obj.find fs "distributionId" = some v →
          CloudFrontConfiguration.distribution_id fs = .ok v)
    ∧ (Obj.find fs "distributionID" = none →
        Obj.find fs "distributionId" = none →
        CloudFrontConfiguration.distribution_id fs
          = .error (.keyError "distributionId")) := by
  refine ⟨?_, ?_, ?_⟩
  · intro v hv
    simp [CloudFrontConfiguration.distribution_id, Obj.containsKey,
      Obj.getItem, hv]
  · intro hID v hv
    simp [CloudFrontConfiguration.distribution_id, Obj.containsKey,
      Obj.getItem, hID, hv]
  · intro hID hId
    simp [CloudFrontConfiguration.distribution_id, Obj.containsKey,
      Obj.getItem, hID, hId]

/-- C10: the `body_encoding` setter is atomic on error — for a value other
than "text" or "base64" it raises the `ValueError` before performing any
write, so the underlying mapping is left entirely unchanged (every key,
including any previously stored "bodyEncoding", reads as before). -/
theorem claim_C10 (fs : Obj) (v : String)
    (hv : v ≠ "text") (hv' : v ≠ "base64") :
    (CloudFrontResponse.body_encoding_set fs v).1
      = .error (.valueError (CloudFrontResponse.bodyEncodingErrorMsg v))
    ∧ (CloudFrontResponse.body_encoding_set fs v).2 = fs
    ∧ (∀ k, Obj.find ((CloudFrontResponse.body_encoding_set fs v).2) k
        = Obj.find fs k) := by
  have hor : ¬(v = "text" ∨ v = "base64") := by
    simp [hv, hv']
  refine ⟨?_, ?_, ?_⟩
  · simp [CloudFrontResponse.body_encoding_set, hor]
  · simp [CloudFrontResponse.body_encoding_set, hor]
  · intro k
    simp [CloudFrontResponse.body_encoding_set, hor]

/-- C10 witness: setting `body_encoding` to "gzip" on a mapping that
already stores "text" fails and leaves the stored value in place. -/
theorem claim_C10_witness :
    (CloudFrontResponse.body_encoding_set
        [("bodyEncoding", JValue.str "text")] "gzip").1
      = .error (.valueError (CloudFrontResponse.bodyEncodingErrorMsg "gzip"))
    ∧ (CloudFrontResponse.body_encoding_set
        [("bodyEncoding", JValue.str "text")] "gzip").2
      = [("bodyEncoding", JValue.str "text")]
    ∧ (∀ k, Obj.find ((CloudFrontResponse.body_encoding_set
        [("bodyEncoding", JValue.str "text")] "gzip").2) k
        = Obj.find [("bodyEncoding", JValue.str "text")] k) :=
  claim_C10 [("bodyEncoding", JValue.str "text")] "gzip"
    (by decide) (by decide)

/-- C8: applying the schema-validated invocation decorator with a model
requiring `age: int` and `name: str` to any handler, then invoking it on
`{"age": "not_a_number", "name": 123}`, yields a validation error — not a
silent coercion or a handler return value — whose aggregated field list
contains the offending field "age". -/
theorem claim_C8 (handler : Obj → Obj) :
    event_parser_invoke StrictModel handler
        [("age", JValue.str "not_a_number"), ("name", JValue.num 123)]
      = .error ["age", "name"]
    ∧ "age" ∈ (["age", "name"] : List String) :=
  ⟨rfl, by decide⟩
